import Mathlib

/-!
Shallow embedding of `src/src/main.rs` from `open-esc-firmware`: an open-loop
six-step BLDC commutation driver for the RP2040.  Machine integers are
modelled as `Nat` with explicit `% 2 ^ w` reductions exactly where the source
performs a narrowing `as` cast or where release-profile wrapping arithmetic
applies; Rust panics (division by zero) are modelled by `Option`.

The hardware layer (`embassy_rp::pwm`) is outside this repository.  Its
behaviour is modelled from the spec: §6 gives the per-side switch interface
(`set_conduction_fraction(percent: 0..=100)`, `set_fully_on`, `set_fully_off`),
§4.2 states that an inverted complementary channel conducts the complementary
fraction of the period, and §7 notes that the underlying switch-control write
can report failure which the source silently discards.  Concretely: a PWM
channel with compare value `c`, top `t` and no inversion conducts for fraction
`c / (t + 1)` of the period (so it conducts at all iff `0 < c`); with
inversion it conducts the complementary fraction (so it conducts iff
`c < t + 1`); a duty write of more than the full period (`duty > t + 1`) is
rejected and leaves the compare register unchanged.
-/

namespace OpenEscFirmware

/-- Mirrors `PhaseState` (main.rs lines 55-60): how a half bridge phase is driven. -/
inductive PhaseState where
  | HighDutyCycle (duty : Nat)
  | Low
  | HighImpedance
deriving DecidableEq

/-- Mirrors `InverterOutput` (main.rs lines 63-68): control outputs for a three phase inverter. -/
structure InverterOutput where
  phase_a : PhaseState
  phase_b : PhaseState
  phase_c : PhaseState
deriving DecidableEq

/-- Mirrors `FULLY_ON_DUTY_CYCLE` (main.rs line 14). -/
def FULLY_ON_DUTY_CYCLE : Nat := 100

/-- Mirrors `MAX_INVERTER_DUTY_CYCLE` (main.rs line 16). -/
def MAX_INVERTER_DUTY_CYCLE : Nat := 15

/-- Mirrors `MIN_INVERTER_DUTY_CYCLE` (main.rs line 18). -/
def MIN_INVERTER_DUTY_CYCLE : Nat := 0

/-- Mirrors `THREE_PHASE_COMMUTATION_TABLE` (main.rs lines 21-52). -/
def THREE_PHASE_COMMUTATION_TABLE : List InverterOutput := [
  ⟨PhaseState.HighDutyCycle MAX_INVERTER_DUTY_CYCLE, PhaseState.Low, PhaseState.HighImpedance⟩,
  ⟨PhaseState.HighDutyCycle MAX_INVERTER_DUTY_CYCLE, PhaseState.HighImpedance, PhaseState.Low⟩,
  ⟨PhaseState.HighImpedance, PhaseState.HighDutyCycle MAX_INVERTER_DUTY_CYCLE, PhaseState.Low⟩,
  ⟨PhaseState.Low, PhaseState.HighDutyCycle MAX_INVERTER_DUTY_CYCLE, PhaseState.HighImpedance⟩,
  ⟨PhaseState.Low, PhaseState.HighImpedance, PhaseState.HighDutyCycle MAX_INVERTER_DUTY_CYCLE⟩,
  ⟨PhaseState.HighImpedance, PhaseState.Low, PhaseState.HighDutyCycle MAX_INVERTER_DUTY_CYCLE⟩]

/-- Mirrors `embassy_rp::pwm::Config` restricted to the fields the source ever
sets (main.rs lines 102-110); `set_config` writes all of them, and every
config built by the source sets every field, so the HAL defaults are
irrelevant.  The same structure doubles as the observable register state of
one PWM slice. -/
structure PwmConfig where
  invert_a : Bool
  invert_b : Bool
  phase_correct : Bool
  enable : Bool
  divider : Nat
  compare_a : Nat
  compare_b : Nat
  top : Nat
deriving DecidableEq

/-- A hardware command issued by the driver to its PWM slice: a whole-config
write, or a duty (compare) write to channel A (high side) or channel B (low
side).  The duty value carried is the requested compare value. -/
inductive Command where
  | setConfigCmd (c : PwmConfig)
  | writeDutyA (duty : Nat)
  | writeDutyB (duty : Nat)
deriving DecidableEq

/-- Modelled from the spec: whether the hardware accepts a write (§7,
"hardware rejection").  A duty write beyond the full period
(`duty > top + 1`) is rejected. -/
def acceptsCmd (r : PwmConfig) : Command → Bool
  | Command.setConfigCmd _ => true
  | Command.writeDutyA d => decide (d ≤ r.top + 1)
  | Command.writeDutyB d => decide (d ≤ r.top + 1)

/-- Modelled from the spec: effect of one accepted command on the register
state; a rejected duty write leaves the registers unchanged (§7: the source
discards the returned error). -/
def applyCommand (r : PwmConfig) : Command → PwmConfig
  | Command.setConfigCmd c => c
  | Command.writeDutyA d => if d ≤ r.top + 1 then { r with compare_a := d } else r
  | Command.writeDutyB d => if d ≤ r.top + 1 then { r with compare_b := d } else r

/-- Register state after a whole command list. -/
def runCmds (r : PwmConfig) (cs : List Command) : PwmConfig :=
  cs.foldl applyCommand r

/-- Register states observed after each successive command of a list. -/
def statesAfter (r : PwmConfig) : List Command → List PwmConfig
  | [] => []
  | c :: cs =>
    let r2 := applyCommand r c
    r2 :: statesAfter r2 cs

/-- Whether every duty write in a command sequence is accepted by the hardware
(the in-range path; a `false` means some write took the rejected path). -/
def writesAccepted (r : PwmConfig) : List Command → Bool
  | [] => true
  | c :: cs => acceptsCmd r c && writesAccepted (applyCommand r c) cs

/-- The two sides of a half bridge. -/
inductive Side where
  | high
  | low
deriving DecidableEq

def sides : List Side := [Side.high, Side.low]

/-- Modelled from the spec (§4.2, §6): a side is commanded to conduct iff its
channel is enabled and its programmed conduction fraction is positive.  A
non-inverted channel conducts iff its compare value is positive; an inverted
channel conducts the complementary fraction, hence iff its compare value is
below the full period `top + 1`. -/
def conducts : Side → PwmConfig → Bool
  | Side.high, r => r.enable && (if r.invert_a then decide (r.compare_a < r.top + 1) else decide (0 < r.compare_a))
  | Side.low, r => r.enable && (if r.invert_b then decide (r.compare_b < r.top + 1) else decide (0 < r.compare_b))

/-- The deactivate-before-activate ordering discipline of spec §4.2 for one
transition: starting from registers `r0`, for every side conducting at the
start of the transition and every side not conducting at the start, if some
command of the transition first leaves the new side conducting, then some
strictly earlier command must first have left the old side non-conducting. -/
def deactBeforeAct (r0 : PwmConfig) (cs : List Command) : Bool :=
  let states := statesAfter r0 cs
  sides.all fun s =>
    sides.all fun t =>
      if conducts s r0 && !conducts t r0 then
        match states.findIdx? (fun r => conducts t r), states.findIdx? (fun r => !conducts s r) with
        | some j, some i => decide (i < j)
        | some _, none => false
        | none, _ => true
      else true

/-- Modelled from the spec: `embassy_rp::clocks::clk_sys_freq()` on the RP2040
(outside this repository); the spec fixes it at 125 MHz (§8). -/
def clk_sys_freq : Nat := 125000000

/-- The sub-expression `clock_freq_hz / (pwm_frequency_hz * divider as u32)`
of `HalfBridge::new` (main.rs line 97) with the source's `divider = 16`; the
u32 multiplication wraps modulo `2 ^ 32` (release profile).  Nat division by
zero yields 0 here; `halfBridgeNew` guards that case separately since Rust
panics on it. -/
def period_ticks (clock_freq_hz pwm_frequency_hz : Nat) : Nat :=
  clock_freq_hz / (pwm_frequency_hz * 16 % 2 ^ 32)

/-- The u64 quotient `dead_time_ns * clock_freq_hz / divider / 1_000_000_000`
of `HalfBridge::new` (main.rs lines 98-99), before the narrowing `as u16`
cast; the u64 product of two u32 values cannot overflow. -/
def dead_time_ticks_u64 (dead_time_ns clock_freq_hz : Nat) : Nat :=
  dead_time_ns * clock_freq_hz / 16 / 1000000000

/-- `dead_time_ticks` as stored (main.rs lines 98-99): the u64 quotient
narrowed by `as u16`, i.e. reduced modulo `2 ^ 16`. -/
def dead_time_ticks (dead_time_ns clock_freq_hz : Nat) : Nat :=
  dead_time_ticks_u64 dead_time_ns clock_freq_hz % 2 ^ 16

/-- Mirrors the `HalfBridge` struct (main.rs lines 71-80): the owned PWM
slice's register state plus the cached timing fields. -/
structure HalfBridge where
  regs : PwmConfig
  divider : Nat
  top : Nat
  dead_time_percentage : Nat
deriving DecidableEq

/-- Mirrors `HalfBridge::new` (main.rs lines 87-122), release-profile
semantics.  `period` is `(period_ticks - 1) as u16 / 2`: the u32 subtraction
wraps when the quotient is 0, then the result is narrowed modulo `2 ^ 16` and
halved.  `dead_time_percentage` is `(dead_time_ticks * 100 / period) as u8`.
`none` models a Rust division-by-zero panic (zero u32 divisor at line 97, or
`period = 0` at line 100); no other validation is performed by the source. -/
def halfBridgeNew (clock_freq_hz pwm_frequency_hz dead_time_ns : Nat) : Option HalfBridge :=
  if pwm_frequency_hz * 16 % 2 ^ 32 = 0 then none
  else
    let period := (period_ticks clock_freq_hz pwm_frequency_hz + (2 ^ 32 - 1)) % 2 ^ 32 % 2 ^ 16 / 2
    if period = 0 then none
    else
      let dtt := dead_time_ticks dead_time_ns clock_freq_hz
      let dead_time_percentage := dtt * 100 / period % 2 ^ 8
      some ⟨⟨false, false, true, true, 16, 0, 0, period⟩, 16, period, dead_time_percentage⟩

/-- Commands issued by `HalfBridge::set_high` (main.rs lines 125-144): the
complementary config write (channel B inverted, both compares zeroed), then
the high-side duty write at `percentage`, then the low-side duty write at
`percentage + dead_time_percentage` (a u8 addition, wrapping modulo 256).  A
percent-duty write requests compare value `percent * (top + 1) / 100`. -/
def setHighCmds (hb : HalfBridge) (percentage : Nat) : List Command :=
  [Command.setConfigCmd ⟨false, true, true, true, hb.divider, 0, 0, hb.top⟩,
   Command.writeDutyA (percentage * (hb.top + 1) / 100),
   Command.writeDutyB ((percentage + hb.dead_time_percentage) % 2 ^ 8 * (hb.top + 1) / 100)]

/-- Commands issued by `HalfBridge::set_low` (main.rs lines 147-164): the
non-inverted config write, then high side fully off (compare 0), then low
side fully on (compare `top + 1`). -/
def setLowCmds (hb : HalfBridge) : List Command :=
  [Command.setConfigCmd ⟨false, false, true, true, hb.divider, 0, 0, hb.top⟩,
   Command.writeDutyA 0,
   Command.writeDutyB (hb.top + 1)]

/-- Commands issued by `HalfBridge::set_high_impedance` (main.rs lines
167-184): the non-inverted config write, then both sides fully off. -/
def setHiZCmds (hb : HalfBridge) : List Command :=
  [Command.setConfigCmd ⟨false, false, true, true, hb.divider, 0, 0, hb.top⟩,
   Command.writeDutyA 0,
   Command.writeDutyB 0]

/-- Register effect of `set_high`. -/
def setHighRun (hb : HalfBridge) (percentage : Nat) : HalfBridge :=
  { hb with regs := runCmds hb.regs (setHighCmds hb percentage) }

/-- Register effect of `set_low`. -/
def setLowRun (hb : HalfBridge) : HalfBridge :=
  { hb with regs := runCmds hb.regs (setLowCmds hb) }

/-- Register effect of `set_high_impedance`. -/
def setHiZRun (hb : HalfBridge) : HalfBridge :=
  { hb with regs := runCmds hb.regs (setHiZCmds hb) }

/-- The half bridge constructed by `main` (main.rs lines 203-205):
`HalfBridge::new(slice, high, low, 25_000, 1000)` at the 125 MHz system
clock, namely top = 155 and dead_time_percentage = 4. -/
def hbMain : HalfBridge := ⟨⟨false, false, true, true, 16, 0, 0, 155⟩, 16, 155, 4⟩

/-- `hbMain` after `set_low()`: the low side fully conducting. -/
def hbGrounded : HalfBridge := setLowRun hbMain

/-- The step advance of `bldc_driver_task` (main.rs line 228):
`step = (step + 1) % THREE_PHASE_COMMUTATION_TABLE.len()`. -/
def advanceStep (step : Nat) : Nat :=
  (step + 1) % THREE_PHASE_COMMUTATION_TABLE.length

/-- The step indices visited by six successive advances from `s`. -/
def stepSeq (s : Nat) : List Nat :=
  (List.range 6).map fun k => advanceStep^[k + 1] s

/-- Table lookup `THREE_PHASE_COMMUTATION_TABLE[step]` (main.rs line 230); the
index is always reduced modulo the table length by the scheduler, so the
lookup is total. -/
def tableEntry (n : Nat) : InverterOutput :=
  THREE_PHASE_COMMUTATION_TABLE.get
    ⟨n % THREE_PHASE_COMMUTATION_TABLE.length, Nat.mod_lt n (by decide)⟩

/-- The scheduler state of `bldc_driver_task` (main.rs lines 219-226). -/
structure BldcState where
  step : Nat
  half_bridge_a : HalfBridge
  half_bridge_b : HalfBridge
  half_bridge_c : HalfBridge

/-- The dispatch mapping of spec §4.4 item 3: `Energized(duty)` goes to
`set_energized(duty)` (source: `set_high`), `Grounded` to `set_grounded()`
(source: `set_low`), `HighImpedance` to `set_high_impedance()`. -/
def applyPhase (hb : HalfBridge) : PhaseState → HalfBridge
  | PhaseState.HighDutyCycle percentage => setHighRun hb percentage
  | PhaseState.Low => setLowRun hb
  | PhaseState.HighImpedance => setHiZRun hb

/-- The hardware commands the matching operation issues. -/
def phaseCmds (hb : HalfBridge) : PhaseState → List Command
  | PhaseState.HighDutyCycle percentage => setHighCmds hb percentage
  | PhaseState.Low => setLowCmds hb
  | PhaseState.HighImpedance => setHiZCmds hb

/-- One iteration of the `bldc_driver_task` loop body (main.rs lines 227-250):
advance the step, look the entry up, and run the three per-phase matches in
order (channel a, then b, then c).  Returns the new scheduler state together
with the command trace issued to each of the three channels. -/
def bldcTick (st : BldcState) : BldcState × (List Command × List Command × List Command) :=
  let step := advanceStep st.step
  let output := tableEntry (st.step + 1)
  let resA : HalfBridge × List Command :=
    match output.phase_a with
    | PhaseState.HighDutyCycle percentage =>
      (setHighRun st.half_bridge_a percentage, setHighCmds st.half_bridge_a percentage)
    | PhaseState.Low => (setLowRun st.half_bridge_a, setLowCmds st.half_bridge_a)
    | PhaseState.HighImpedance => (setHiZRun st.half_bridge_a, setHiZCmds st.half_bridge_a)
  let resB : HalfBridge × List Command :=
    match output.phase_b with
    | PhaseState.HighDutyCycle percentage =>
      (setHighRun st.half_bridge_b percentage, setHighCmds st.half_bridge_b percentage)
    | PhaseState.Low => (setLowRun st.half_bridge_b, setLowCmds st.half_bridge_b)
    | PhaseState.HighImpedance => (setHiZRun st.half_bridge_b, setHiZCmds st.half_bridge_b)
  let resC : HalfBridge × List Command :=
    match output.phase_c with
    | PhaseState.HighDutyCycle percentage =>
      (setHighRun st.half_bridge_c percentage, setHighCmds st.half_bridge_c percentage)
    | PhaseState.Low => (setLowRun st.half_bridge_c, setLowCmds st.half_bridge_c)
    | PhaseState.HighImpedance => (setHiZRun st.half_bridge_c, setHiZCmds st.half_bridge_c)
  (⟨step, resA.1, resB.1, resC.1⟩, (resA.2, resB.2, resC.2))

/-- The three phase entries of one commutation step, in order. -/
def phases (o : InverterOutput) : List PhaseState :=
  [o.phase_a, o.phase_b, o.phase_c]

/-- Whether a phase entry is the Energized role (`HighDutyCycle`). -/
def isEnergized : PhaseState → Bool
  | PhaseState.HighDutyCycle _ => true
  | _ => false

/-- Whether a phase entry is the Grounded role (`Low`). -/
def isGrounded : PhaseState → Bool
  | PhaseState.Low => true
  | _ => false

/-- Whether a phase entry is the HighImpedance role. -/
def isHighImpedance : PhaseState → Bool
  | PhaseState.HighImpedance => true
  | _ => false

/-- Spec §3 invariant for one commutation step: exactly one phase in each of
the three roles. -/
def exactlyOneEachRole (o : InverterOutput) : Prop :=
  (phases o).countP isEnergized = 1 ∧
  (phases o).countP isGrounded = 1 ∧
  (phases o).countP isHighImpedance = 1

end OpenEscFirmware

namespace OpenEscFirmware

/-- The role-count invariant is decidable, so concrete tables can be checked
by evaluation. -/
instance exactlyOneEachRoleDecidable (o : InverterOutput) : Decidable (exactlyOneEachRole o) :=
  inferInstanceAs (Decidable (_ ∧ _ ∧ _))

/-- C2: for every index i in [0,6), the commutation table entry at index i
assigns the three phase roles exactly-one-of-each: exactly one phase is
Energized (HighDutyCycle), exactly one is Grounded (Low), and exactly one is
HighImpedance. -/
theorem commutation_table_one_of_each_role :
    THREE_PHASE_COMMUTATION_TABLE.length = 6 ∧
    ∀ i (h : i < THREE_PHASE_COMMUTATION_TABLE.length),
      exactlyOneEachRole (THREE_PHASE_COMMUTATION_TABLE.get ⟨i, h⟩) :=
  ⟨rfl, by decide⟩

/-- Witness for C2: the invariant evaluated at index 0. -/
theorem commutation_table_one_of_each_role_witness :
    exactlyOneEachRole (THREE_PHASE_COMMUTATION_TABLE.get ⟨0, by decide⟩) :=
  commutation_table_one_of_each_role.2 0 (by decide)

/-- C3: the timing computation's `period_ticks` sub-expression is the
truncated integer quotient clock_hz / (switching_freq_hz * divider) (floor
characterization, for divisors that are positive and representable in u32),
and at clock 125_000_000, switching frequency 25_000, divider 16 it equals
312. -/
theorem period_ticks_truncation :
    (∀ c f, 0 < f * 16 → f * 16 < 2 ^ 32 →
      period_ticks c f * (f * 16) ≤ c ∧ c < (period_ticks c f + 1) * (f * 16)) ∧
    period_ticks 125000000 25000 = 312 := by
  refine ⟨fun c f h1 h2 => ?_, by decide⟩
  unfold period_ticks
  rw [Nat.mod_eq_of_lt h2]
  refine ⟨Nat.div_mul_le_self c (f * 16), ?_⟩
  have h3 := Nat.div_add_mod c (f * 16)
  have h4 := Nat.mod_lt c h1
  calc c = f * 16 * (c / (f * 16)) + c % (f * 16) := h3.symm
    _ < f * 16 * (c / (f * 16)) + f * 16 := by omega
    _ = (c / (f * 16) + 1) * (f * 16) := by ring

/-- Witness for C3: the floor characterization discharged at the concrete
125 MHz / 25 kHz instance. -/
theorem period_ticks_truncation_witness :
    period_ticks 125000000 25000 * (25000 * 16) ≤ 125000000 ∧
    125000000 < (period_ticks 125000000 25000 + 1) * (25000 * 16) :=
  period_ticks_truncation.1 125000000 25000 (by decide) (by decide)

/-- C6: advancing the step index via `(step + 1) % 6` six times from any
starting index in [0,6) returns to that starting index, and the six advances
visit each of the 6 table indices exactly once (the visit list has no
duplicates, has length 6, and contains every index below 6). -/
theorem step_index_six_cycle :
    ∀ s, s < 6 →
      advanceStep^[6] s = s ∧ (stepSeq s).Nodup ∧ (stepSeq s).length = 6 ∧
      ∀ j, j < 6 → j ∈ stepSeq s := by decide

/-- Witness for C6: the cycle property discharged at starting index 0. -/
theorem step_index_six_cycle_witness :
    advanceStep^[6] 0 = 0 ∧ 0 ∈ stepSeq 0 :=
  ⟨(step_index_six_cycle 0 (by decide)).1,
   (step_index_six_cycle 0 (by decide)).2.2.2 0 (by decide)⟩

/-- C7 counterexample: the stored `dead_time_ticks` is narrowed by `as u16`,
so at dead_time_ns = 4_000_000_000 and clock 125 MHz it differs from the
claimed truncated quotient dead_time_ns * clock_hz / divider / 1e9
(54864 versus 31250000). -/
theorem dead_time_ticks_cast_wraps :
    dead_time_ticks 4000000000 125000000 ≠ 4000000000 * 125000000 / 16 / 1000000000 := by
  decide

/-- C7 amended: the stored dead-time equals the truncated quotient
dead_time_ns * clock_hz / divider / 1e9 whenever that quotient fits in 16
bits (otherwise the `as u16` cast reduces it modulo 2^16). -/
theorem dead_time_ticks_matches_quotient :
    ∀ n c, dead_time_ticks_u64 n c < 2 ^ 16 →
      dead_time_ticks n c = n * c / 16 / 1000000000 := by
  intro n c h
  unfold dead_time_ticks
  exact Nat.mod_eq_of_lt h

/-- Witness for the amended C7: the realistic configuration 1000 ns at
125 MHz, where the quotient is 7. -/
theorem dead_time_ticks_matches_quotient_witness :
    dead_time_ticks 1000 125000000 = 1000 * 125000000 / 16 / 1000000000 :=
  dead_time_ticks_matches_quotient 1000 125000000 (by decide)

/-- C8 counterexample: the stored `dead_time_ticks` is not monotone in
dead_time_ns at fixed clock 125 MHz: 8388480 ≤ 8388608 ns, yet the stored
ticks drop from 65535 to 0 because the `as u16` cast wraps. -/
theorem dead_time_ticks_nonmonotone_at_cast :
    8388480 ≤ 8388608 ∧
    ¬ dead_time_ticks 8388480 125000000 ≤ dead_time_ticks 8388608 125000000 := by
  decide

/-- C8 amended: the pre-cast quotient dead_time_ns * clock_hz / divider / 1e9
is monotonically non-decreasing in dead_time_ns for every fixed clock, and
the stored u16 `dead_time_ticks` is monotone on any pair whose larger
quotient still fits in 16 bits. -/
theorem dead_time_quotient_monotone :
    ∀ c n1 n2, n1 ≤ n2 →
      dead_time_ticks_u64 n1 c ≤ dead_time_ticks_u64 n2 c ∧
      (dead_time_ticks_u64 n2 c < 2 ^ 16 → dead_time_ticks n1 c ≤ dead_time_ticks n2 c) := by
  intro c n1 n2 h
  have hmono : dead_time_ticks_u64 n1 c ≤ dead_time_ticks_u64 n2 c := by
    unfold dead_time_ticks_u64
    gcongr
  refine ⟨hmono, fun h2 => ?_⟩
  unfold dead_time_ticks
  rw [Nat.mod_eq_of_lt h2, Nat.mod_eq_of_lt (lt_of_le_of_lt hmono h2)]
  exact hmono

/-- Witness for the amended C8: monotonicity discharged at 0 ≤ 1000 ns at
125 MHz. -/
theorem dead_time_quotient_monotone_witness :
    dead_time_ticks_u64 0 125000000 ≤ dead_time_ticks_u64 1000 125000000 ∧
    dead_time_ticks 0 125000000 ≤ dead_time_ticks 1000 125000000 :=
  ⟨(dead_time_quotient_monotone 125000000 0 1000 (by decide)).1,
   (dead_time_quotient_monotone 125000000 0 1000 (by decide)).2 (by decide)⟩

/-- C1: on the transition Grounded → set_energized(50) of the half bridge
`main` constructs, the currently-conducting low side is never commanded off
during the transition, while the high side is activated by the second
command: the deactivate-before-activate ordering predicate evaluates to
false, and after the second command both sides are commanded conducting
simultaneously.  This contradicts the claimed invariant that on every
transition the currently-active side is commanded off before the newly-active
side is commanded on. -/
theorem set_high_from_grounded_no_deactivate_first :
    halfBridgeNew clk_sys_freq 25000 1000 = some hbMain ∧
    conducts Side.low hbGrounded.regs = true ∧
    conducts Side.high hbGrounded.regs = false ∧
    deactBeforeAct hbGrounded.regs (setHighCmds hbGrounded 50) = false ∧
    conducts Side.high ((statesAfter hbGrounded.regs (setHighCmds hbGrounded 50)).getD 1 hbGrounded.regs) = true ∧
    conducts Side.low ((statesAfter hbGrounded.regs (setHighCmds hbGrounded 50)).getD 1 hbGrounded.regs) = true := by
  decide

/-- C4: construction performs none of the claimed startup validation.  With
switching frequency 10 MHz the quotient `period_ticks` is 0, yet the wrapping
u32 subtraction and u16 narrowing produce top = 32767 and construction
succeeds; with dead_time_ns = 1_000_000 the dead time (7812 ticks) exceeds
the period (312 ticks), yet construction succeeds with a dead-time percentage
silently wrapped modulo 256 to 176.  No fatal configuration error is
reported in either case. -/
theorem construction_accepts_invalid_timing :
    period_ticks 125000000 10000000 = 0 ∧
    halfBridgeNew 125000000 10000000 0 =
      some ⟨⟨false, false, true, true, 16, 0, 0, 32767⟩, 16, 32767, 0⟩ ∧
    period_ticks 125000000 25000 ≤ dead_time_ticks 1000000 125000000 ∧
    halfBridgeNew 125000000 25000 1000000 =
      some ⟨⟨false, false, true, true, 16, 0, 0, 155⟩, 16, 155, 176⟩ := by
  decide

/-- C5: set_energized(150) on the half bridge `main` constructs is not
clamped to duty 100: both duty writes are rejected by the hardware layer and
silently discarded, the high-side compare stays at 0 (set by the preceding
config write) — not the compare of duty 100 and not that of duty 50 — so the
high side does not conduct at all while the inverted low side is left fully
conducting. -/
theorem set_high_150_not_clamped :
    halfBridgeNew clk_sys_freq 25000 1000 = some hbMain ∧
    writesAccepted hbMain.regs (setHighCmds hbMain 150) = false ∧
    (setHighRun hbMain 150).regs.compare_a = 0 ∧
    (setHighRun hbMain 150).regs.compare_a ≠ 100 * (hbMain.top + 1) / 100 ∧
    (setHighRun hbMain 150).regs.compare_a ≠ 50 * (hbMain.top + 1) / 100 ∧
    conducts Side.high (setHighRun hbMain 150).regs = false ∧
    conducts Side.low (setHighRun hbMain 150).regs = true := by
  decide

/-- C9: on every scheduler tick, from every scheduler state, the step index
is advanced modulo the table length, and each of the three half-bridge
channels receives exactly the command sequence of the operation matching its
table entry (Energized → set_high, Grounded → set_low, HighImpedance →
set_high_impedance); every channel's command sequence is non-empty, so no
dispatch is skipped — including in states where some hardware write is
rejected, since rejected writes change nothing and are discarded. -/
theorem bldc_tick_dispatches_each_phase (st : BldcState) :
    (bldcTick st).1.step = (st.step + 1) % THREE_PHASE_COMMUTATION_TABLE.length ∧
    (bldcTick st).2.1 = phaseCmds st.half_bridge_a (tableEntry (st.step + 1)).phase_a ∧
    (bldcTick st).2.2.1 = phaseCmds st.half_bridge_b (tableEntry (st.step + 1)).phase_b ∧
    (bldcTick st).2.2.2 = phaseCmds st.half_bridge_c (tableEntry (st.step + 1)).phase_c ∧
    (bldcTick st).1.half_bridge_a = applyPhase st.half_bridge_a (tableEntry (st.step + 1)).phase_a ∧
    (bldcTick st).1.half_bridge_b = applyPhase st.half_bridge_b (tableEntry (st.step + 1)).phase_b ∧
    (bldcTick st).1.half_bridge_c = applyPhase st.half_bridge_c (tableEntry (st.step + 1)).phase_c ∧
    (bldcTick st).2.1 ≠ [] ∧ (bldcTick st).2.2.1 ≠ [] ∧ (bldcTick st).2.2.2 ≠ [] := by
  cases hA : (tableEntry (st.step + 1)).phase_a <;>
  cases hB : (tableEntry (st.step + 1)).phase_b <;>
  cases hC : (tableEntry (st.step + 1)).phase_c <;>
    simp [bldcTick, phaseCmds, applyPhase, advanceStep, hA, hB, hC,
      setHighCmds, setLowCmds, setHiZCmds]

/-- C10: every Energized entry of the commutation table carries duty exactly
MAX_INVERTER_DUTY_CYCLE = 15, which is within [0,100], and a
scheduler-originated set_high call at that duty has every hardware write
accepted (from any starting register state), so the out-of-range duty path is
never exercised during table-driven operation. -/
theorem table_duty_is_max_inverter_duty :
    MAX_INVERTER_DUTY_CYCLE = 15 ∧
    MAX_INVERTER_DUTY_CYCLE ≤ FULLY_ON_DUTY_CYCLE ∧
    (∀ i (h : i < THREE_PHASE_COMMUTATION_TABLE.length), ∀ p,
      p ∈ phases (THREE_PHASE_COMMUTATION_TABLE.get ⟨i, h⟩) →
      isEnergized p = true → p = PhaseState.HighDutyCycle MAX_INVERTER_DUTY_CYCLE) ∧
    (∀ r0, writesAccepted r0 (setHighCmds hbMain MAX_INVERTER_DUTY_CYCLE) = true) :=
  ⟨rfl, by decide, by decide, fun r0 => rfl⟩

/-- Witness for C10: the Energized entry of table index 0 carries duty 15. -/
theorem table_duty_is_max_inverter_duty_witness :
    PhaseState.HighDutyCycle 15 = PhaseState.HighDutyCycle MAX_INVERTER_DUTY_CYCLE :=
  table_duty_is_max_inverter_duty.2.2.1 0 (by decide) (PhaseState.HighDutyCycle 15)
    (by decide) (by decide)

end OpenEscFirmware
